import Mathlib

/-!
Shallow embedding of `src/function_app.py`, a scheduled Azure Functions job
that provisions Oracle wallet credentials from blob storage, connects to the
database, generates synthetic water-usage records, and batch-inserts them.

Modelling conventions:
* `numpy` floating-point draws (`np.random.normal`) are modelled as arbitrary
  rational values supplied by an injectable random-source structure `Rng`;
  the claims place no constraint on the drawn values themselves.
* `np.random.choice(values)` is modelled by `np_choice`: an arbitrary natural
  index from the stream reduced modulo the list length, so exactly the
  elements of `values` are reachable.
* `np.random.randint(lo, hi)` is modelled by `np_randint`, returning
  `lo + k % (hi - lo)`, i.e. a value in `[lo, hi)`.
* Python exceptions are modelled with `Except`/`Option`; an exception that a
  function does not catch appears in its result type.
-/

/-- `DataTuple` from `function_app.py`: one row
`(time_of_day, season, temperature, household_size, day_of_week, water_consumption, is_anomaly)`. -/
structure DataTuple where
  time_of_day : String
  season : String
  temperature : ℚ
  household_size : ℤ
  day_of_week : String
  water_consumption : ℚ
  is_anomaly : ℤ
deriving DecidableEq, Inhabited

/-- The candidate list handed to `np.random.choice` for `time_of_day`. -/
def timeOfDayValues : List String := ["morning", "afternoon", "evening", "night"]

/-- The candidate list handed to `np.random.choice` for `season`. -/
def seasonValues : List String := ["spring", "summer", "fall", "winter"]

/-- The candidate list handed to `np.random.choice` for `day_of_week`. -/
def dayOfWeekValues : List String := ["weekday", "weekend"]

/-- The candidate offsets `[0, 250]` added to anomalous consumption. -/
def anomalyOffsets : List ℚ := [0, 250]

/-- Model of `np.random.choice(values)`: the stream provides an arbitrary
index `k`, reduced modulo the list length, so the result is always an
element of `values`. -/
def np_choice {α : Type} (values : List α) (h : 0 < values.length) (k : Nat) : α :=
  values.get ⟨k % values.length, Nat.mod_lt k h⟩

/-- Model of `np.random.randint(lo, hi)` (numpy: inclusive low, exclusive
high): the stream index `k` is reduced into `[lo, hi)`. -/
def np_randint (lo hi : ℤ) (k : Nat) : ℤ :=
  lo + ((k % (hi - lo).toNat : ℕ) : ℤ)

/-- Injectable random source: one stream per `np.random` call site of
`generate_sample_data_tuples`.  `tempVal i` and `noiseVal i` are the values
returned by `np.random.normal(20, 5)` and `np.random.normal(0, 10)` for row
`i`; the remaining streams are the index draws feeding `np_choice` /
`np_randint`, and `anomalyVal` the boolean draw of
`np.random.choice([True, False], p=[0.05, 0.95])`. -/
structure Rng where
  todIdx : Nat → Nat
  seasonIdx : Nat → Nat
  tempVal : Nat → ℚ
  hhIdx : Nat → Nat
  dowIdx : Nat → Nat
  noiseVal : Nat → ℚ
  anomalyVal : Nat → Bool
  perturbIdx : Nat → Nat

/-- Rank of row `i` among the anomalous rows: the perturbation array
`np.random.choice([0, 250], size=np.sum(anomalies))` is indexed by position
within the anomalous subset, in row order. -/
def anomalyRank (rng : Rng) (i : Nat) : Nat :=
  ((List.range i).filter rng.anomalyVal).length

/-- Row `i` of `generate_sample_data_tuples`: the five input fields are drawn
independently, `normal_consumption = household_size * 50 + noise`, and rows
flagged anomalous get `+ np.random.choice([0, 250])`; `int(anomalies[i])`
converts the boolean flag to `0`/`1`. -/
def mkRecord (rng : Rng) (i : Nat) : DataTuple :=
  let hh : ℤ := np_randint 1 6 (rng.hhIdx i)
  let normal_consumption : ℚ := (hh : ℚ) * 50 + rng.noiseVal i
  let anom : Bool := rng.anomalyVal i
  let consumption : ℚ :=
    if anom then
      normal_consumption + np_choice anomalyOffsets (by decide) (rng.perturbIdx (anomalyRank rng i))
    else normal_consumption
  { time_of_day := np_choice timeOfDayValues (by decide) (rng.todIdx i)
    season := np_choice seasonValues (by decide) (rng.seasonIdx i)
    temperature := rng.tempVal i
    household_size := hh
    day_of_week := np_choice dayOfWeekValues (by decide) (rng.dowIdx i)
    water_consumption := consumption
    is_anomaly := if anom then 1 else 0 }

/-- `generate_sample_data_tuples(n_samples)`: the list comprehension
`[row(i) for i in range(n_samples)]`. -/
def generate_sample_data_tuples (rng : Rng) (n_samples : Nat) : List DataTuple :=
  (List.range n_samples).map (mkRecord rng)

/-- All-zero random source, used for concrete evaluations. -/
def rng0 : Rng :=
  { todIdx := fun _ => 0, seasonIdx := fun _ => 0, tempVal := fun _ => 0
    hhIdx := fun _ => 0, dowIdx := fun _ => 0, noiseVal := fun _ => 0
    anomalyVal := fun _ => false, perturbIdx := fun _ => 0 }

/-- Random source flagging every row anomalous, used for concrete
evaluations of the anomaly branch. -/
def rngAnom : Rng :=
  { todIdx := fun _ => 0, seasonIdx := fun _ => 0, tempVal := fun _ => 0
    hhIdx := fun _ => 0, dowIdx := fun _ => 0, noiseVal := fun _ => 0
    anomalyVal := fun _ => true, perturbIdx := fun _ => 1 }

/-! ### Credential provisioning, database gateway and orchestrator -/

/-- Contents of a blob or local file, as raw bytes. -/
abbrev Bytes : Type := List Nat

/-- The local filesystem: a map from path to file contents. -/
abbrev FS : Type := String → Option Bytes

/-- Azure blob storage: `fetch container blob` returns the blob bytes or
fails (transport / authorization error, missing blob); any failure surfaces
in Python as an exception raised by the blob client. -/
structure Storage where
  fetch : String → String → Except String Bytes

/-- `WALLET_LOCATION`: `os.path.join(tempfile.gettempdir(), os.environ.get("WALLET_LOCATION", "wallet"))`,
with the default environment value. -/
def WALLET_LOCATION : String := "/tmp/wallet"

/-- `PEM_PATH = os.path.join(WALLET_LOCATION, 'ewallet.pem')`. -/
def PEM_PATH : String := WALLET_LOCATION ++ "/ewallet.pem"

/-- `TNS_PATH = os.path.join(WALLET_LOCATION, 'tnsnames.ora')`. -/
def TNS_PATH : String := WALLET_LOCATION ++ "/tnsnames.ora"

/-- `files_to_download`: the two wallet artifacts with their local paths. -/
def files_to_download : List (String × String) :=
  [("ewallet.pem", PEM_PATH), ("tnsnames.ora", TNS_PATH)]

/-- `download_file`: fetches one blob and writes it to `local_path`
(`open(local_path, "wb")` truncates and overwrites).  A fetch failure is the
blob client raising; the exception propagates to the caller. -/
def download_file (storage : Storage) (container_name blob_name local_path : String)
    (fs : FS) : Except String FS :=
  match storage.fetch container_name blob_name with
  | .error e => .error e
  | .ok b => .ok (Function.update fs local_path (some b))

/-- The `for file_info in files_to_download:` loop body of
`download_wallet_files`, with the surrounding `try`/`except` applied: the
first raising download stops the loop, the exception is caught and logged,
and the filesystem keeps the writes completed before the failure.  Returns
the final filesystem and the logged error message, if any. -/
def downloadLoop (storage : Storage) (container_name : String)
    (files : List (String × String)) (fs : FS) : FS × Option String :=
  match files with
  | [] => (fs, none)
  | (blob_name, local_path) :: rest =>
    match download_file storage container_name blob_name local_path fs with
    | .error e => (fs, some e)
    | .ok fs1 => downloadLoop storage container_name rest fs1

/-- `download_wallet_files`: downloads `ewallet.pem` and `tnsnames.ora` into
the wallet directory; every exception is caught by the enclosing
`try`/`except` and logged, so the function always returns normally. -/
def download_wallet_files (storage : Storage) (container_name : String) (fs : FS) :
    FS × Option String :=
  downloadLoop storage container_name files_to_download fs

/-- The committed contents of the `water_consumption_data` table: the rows
observable to other readers (uncommitted transaction state is not). -/
structure DBState where
  committed : List DataTuple
deriving DecidableEq

/-- `get_db_connection`: `oracledb.connect(...)` either yields a connection
or raises `oracledb.DatabaseError`, which is caught and turned into `None`.
`connectOk` is the injected outcome of the connect attempt. -/
def get_db_connection (connectOk : Bool) : Option Unit :=
  if connectOk then some () else none

/-- `insert_data`: `cursor.executemany(insert_sql, data_tuples)` executes the
parameterized insert once per row, inside the connection's open transaction,
stopping at the first failing row; `failAt i = true` injects a database error
on row `i`.  On success `connection.commit()` publishes the whole batch;
on a row failure the exception propagates (there is no `try`/`except`, no
explicit rollback and no commit, so the committed table is unchanged). -/
def insert_data (failAt : Nat → Bool) (db : DBState) (data_tuples : List DataTuple) :
    Except Nat DBState :=
  match (List.range data_tuples.length).find? failAt with
  | some i => .error i
  | none => .ok ⟨db.committed ++ data_tuples⟩

/-- The external environment of one timer invocation: blob storage, the local
filesystem, the injected outcomes of the connect attempt and of each insert
row, the committed database state, and the random source. -/
structure World where
  storage : Storage
  container_name : String
  fs : FS
  connectOk : Bool
  db : DBState
  rng : Rng
  failAt : Nat → Bool

/-- Observable outcome of one run of `generate_usage_data`: final filesystem
and committed table, whether a download error was logged, whether a database
connection was attempted and obtained, whether the sample generator ran,
whether `connection.close()` ran, and `uncaught = some i` when an exception
(the database error injected on row `i`) escaped the function. -/
structure RunResult where
  fs : FS
  db : DBState
  fetchErrorLogged : Bool
  connectAttempted : Bool
  connected : Bool
  generatorInvoked : Bool
  connectionClosed : Bool
  uncaught : Option Nat

/-- `generate_usage_data`, the timer-triggered entry point:
`download_wallet_files()` (never raises), then `get_db_connection()`
unconditionally; if a connection was obtained, generate 10 rows and insert
them.  `connection.close()` runs only after `insert_data` returns: if
`insert_data` raises, the close is skipped and the exception escapes. -/
def generate_usage_data (w : World) : RunResult :=
  let dl := download_wallet_files w.storage w.container_name w.fs
  match get_db_connection w.connectOk with
  | none =>
    { fs := dl.1, db := w.db, fetchErrorLogged := dl.2.isSome
      connectAttempted := true, connected := false
      generatorInvoked := false, connectionClosed := false, uncaught := none }
  | some _ =>
    let data_tuples := generate_sample_data_tuples w.rng 10
    match insert_data w.failAt w.db data_tuples with
    | .error i =>
      { fs := dl.1, db := w.db, fetchErrorLogged := dl.2.isSome
        connectAttempted := true, connected := true
        generatorInvoked := true, connectionClosed := false, uncaught := some i }
    | .ok db1 =>
      { fs := dl.1, db := db1, fetchErrorLogged := dl.2.isSome
        connectAttempted := true, connected := true
        generatorInvoked := true, connectionClosed := true, uncaught := none }

/-! ### Concrete environments for evaluation -/

/-- Storage in which every fetch succeeds. -/
def storageOK : Storage := ⟨fun _ _ => .ok [1, 2, 3]⟩

/-- Storage in which fetching `ewallet.pem` fails. -/
def storageFailPem : Storage :=
  ⟨fun _ blob_name => if blob_name = "ewallet.pem" then .error "auth" else .ok [1, 2, 3]⟩

/-- Empty local filesystem. -/
def fs0 : FS := fun _ => none

/-- A healthy world: storage reachable, connect succeeds, no row fails. -/
def wOK : World :=
  { storage := storageOK, container_name := "cfg", fs := fs0, connectOk := true
    db := ⟨[]⟩, rng := rng0, failAt := fun _ => false }

/-- A world in which the insert fails on the last row (row 9) of the
batch of 10, the rollback scenario of the specification. -/
def wFail9 : World :=
  { storage := storageOK, container_name := "cfg", fs := fs0, connectOk := true
    db := ⟨[]⟩, rng := rng0, failAt := fun i => i == 9 }

/-- A world in which the insert fails on the first row. -/
def wFail0 : World :=
  { storage := storageOK, container_name := "cfg", fs := fs0, connectOk := true
    db := ⟨[]⟩, rng := rng0, failAt := fun i => i == 0 }

/-- A world in which the insert fails in the middle of the batch (row 5). -/
def wFail5 : World :=
  { storage := storageOK, container_name := "cfg", fs := fs0, connectOk := true
    db := ⟨[]⟩, rng := rng0, failAt := fun i => i == 5 }

/-- A world in which `oracledb.connect` raises `DatabaseError`. -/
def wNoConn : World :=
  { storage := storageOK, container_name := "cfg", fs := fs0, connectOk := false
    db := ⟨[]⟩, rng := rng0, failAt := fun _ => false }

/-- A world in which fetching the first credential artifact fails. -/
def wFetchFail : World :=
  { storage := storageFailPem, container_name := "cfg", fs := fs0, connectOk := true
    db := ⟨[]⟩, rng := rng0, failAt := fun _ => false }

/-- Row `i` of the generated batch, as read back from the returned list. -/
def generatedRow (rng : Rng) (n i : Nat) : DataTuple :=
  (generate_sample_data_tuples rng n).getD i default

/-! ### Helper lemmas -/

lemma np_choice_mem {α : Type} (values : List α) (h : 0 < values.length) (k : Nat) :
    np_choice values h k ∈ values :=
  List.get_mem values _ _

lemma np_randint_1_6_bounds (k : Nat) :
    1 ≤ np_randint 1 6 k ∧ np_randint 1 6 k ≤ 5 := by
  have h5 : k % 5 < 5 := Nat.mod_lt k (by decide)
  have ht : ((6 : ℤ) - 1).toNat = 5 := by decide
  unfold np_randint
  rw [ht]
  omega

lemma generate_length (rng : Rng) (n : Nat) :
    (generate_sample_data_tuples rng n).length = n := by
  simp [generate_sample_data_tuples]

lemma generatedRow_eq_mkRecord (rng : Rng) (n i : Nat) (h : i < n) :
    generatedRow rng n i = mkRecord rng i := by
  unfold generatedRow generate_sample_data_tuples
  rw [List.getD_eq_getElem?_getD, List.getElem?_map, List.getElem?_range h]
  rfl

/-! ### Claim theorems -/

/-- C5: for every n > 0, `generate_sample_data_tuples(n)` returns an ordered
sequence of exactly n records, each with all 7 fields populated and within
their documented domains: `time_of_day`, `season` and `day_of_week` from
their fixed enum sets, `temperature` a number (an unconstrained normal
draw), `household_size` an integer in [1, 5], and `is_anomaly` in {0, 1}. -/
theorem generate_count_and_domains (rng : Rng) (n : Nat) (h : 0 < n) :
    (generate_sample_data_tuples rng n).length = n ∧
    ∀ r ∈ generate_sample_data_tuples rng n,
      r.time_of_day ∈ timeOfDayValues ∧ r.season ∈ seasonValues ∧
      1 ≤ r.household_size ∧ r.household_size ≤ 5 ∧
      r.day_of_week ∈ dayOfWeekValues ∧ (r.is_anomaly = 0 ∨ r.is_anomaly = 1) := by
  refine ⟨generate_length rng n, ?_⟩
  intro r hr
  simp only [generate_sample_data_tuples, List.mem_map, List.mem_range] at hr
  obtain ⟨i, -, rfl⟩ := hr
  refine ⟨np_choice_mem _ (by decide) _, np_choice_mem _ (by decide) _,
    (np_randint_1_6_bounds (rng.hhIdx i)).1, (np_randint_1_6_bounds (rng.hhIdx i)).2,
    np_choice_mem _ (by decide) _, ?_⟩
  have ha : (mkRecord rng i).is_anomaly = if rng.anomalyVal i then 1 else 0 := rfl
  rw [ha]
  cases rng.anomalyVal i <;> simp

/-- C5 witness: the theorem instantiated at the all-zero random source and
n = 3. -/
theorem generate_count_and_domains_witness :
    (generate_sample_data_tuples rng0 3).length = 3 ∧
    ∀ r ∈ generate_sample_data_tuples rng0 3,
      r.time_of_day ∈ timeOfDayValues ∧ r.season ∈ seasonValues ∧
      1 ≤ r.household_size ∧ r.household_size ≤ 5 ∧
      r.day_of_week ∈ dayOfWeekValues ∧ (r.is_anomaly = 0 ∨ r.is_anomaly = 1) :=
  generate_count_and_domains rng0 3 (by decide)

/-- C6: for every generated record, `water_consumption` equals
`household_size * 50` plus the normal-noise draw when `is_anomaly = 0`;
when `is_anomaly = 1` the baseline is additionally increased by exactly one
of {0, 250}; records not flagged anomalous are never perturbed. -/
theorem water_consumption_formula (rng : Rng) (n i : Nat) (h : i < n) :
    ((generatedRow rng n i).is_anomaly = 0 →
      (generatedRow rng n i).water_consumption =
        ((generatedRow rng n i).household_size : ℚ) * 50 + rng.noiseVal i) ∧
    ((generatedRow rng n i).is_anomaly = 1 →
      ∃ p : ℚ, (p = 0 ∨ p = 250) ∧
        (generatedRow rng n i).water_consumption =
          ((generatedRow rng n i).household_size : ℚ) * 50 + rng.noiseVal i + p) := by
  rw [generatedRow_eq_mkRecord rng n i h]
  have hmem := np_choice_mem anomalyOffsets (by decide)
    (rng.perturbIdx (anomalyRank rng i))
  simp only [anomalyOffsets, List.mem_cons, List.mem_singleton,
    List.not_mem_nil, or_false] at hmem
  cases ha : rng.anomalyVal i
  · constructor
    · intro _
      simp only [mkRecord, ha, if_neg Bool.false_ne_true, Bool.false_eq_true, if_false]
    · intro hone
      exfalso
      have : (mkRecord rng i).is_anomaly = 0 := by
        simp only [mkRecord, ha, Bool.false_eq_true, if_false]
      omega
  · constructor
    · intro hzero
      exfalso
      have : (mkRecord rng i).is_anomaly = 1 := by
        simp only [mkRecord, ha, if_true]
      omega
    · intro _
      refine ⟨np_choice anomalyOffsets (by decide) (rng.perturbIdx (anomalyRank rng i)),
        hmem, ?_⟩
      simp only [mkRecord, ha, if_true]

/-- C6 witness: the theorem instantiated at a random source flagging row 0
anomalous, with n = 1, i = 0. -/
theorem water_consumption_formula_witness :
    ((generatedRow rngAnom 1 0).is_anomaly = 0 →
      (generatedRow rngAnom 1 0).water_consumption =
        ((generatedRow rngAnom 1 0).household_size : ℚ) * 50 + rngAnom.noiseVal 0) ∧
    ((generatedRow rngAnom 1 0).is_anomaly = 1 →
      ∃ p : ℚ, (p = 0 ∨ p = 250) ∧
        (generatedRow rngAnom 1 0).water_consumption =
          ((generatedRow rngAnom 1 0).household_size : ℚ) * 50 + rngAnom.noiseVal 0 + p) :=
  water_consumption_formula rngAnom 1 0 (by decide)

/-- C9: the Generator is total: for every n it returns a sequence of
exactly n records with no failure mode, and at the boundary n = 0 it
returns the empty sequence (the Python code likewise yields `[]` for
`n_samples = 0` and rejects negative sizes, which `Nat` cannot express). -/
theorem generate_total (rng : Rng) (n : Nat) :
    (generate_sample_data_tuples rng n).length = n ∧
    generate_sample_data_tuples rng 0 = [] := by
  exact ⟨generate_length rng n, by simp [generate_sample_data_tuples]⟩

lemma generate_usage_data_no_conn (w : World) (hc : w.connectOk = false) :
    generate_usage_data w =
      { fs := (download_wallet_files w.storage w.container_name w.fs).1
        db := w.db
        fetchErrorLogged := (download_wallet_files w.storage w.container_name w.fs).2.isSome
        connectAttempted := true, connected := false
        generatorInvoked := false, connectionClosed := false, uncaught := none } := by
  simp [generate_usage_data, get_db_connection, hc]

lemma generate_usage_data_insert_fail (w : World) (i : Nat) (hc : w.connectOk = true)
    (hfind : (List.range (generate_sample_data_tuples w.rng 10).length).find? w.failAt
      = some i) :
    generate_usage_data w =
      { fs := (download_wallet_files w.storage w.container_name w.fs).1
        db := w.db
        fetchErrorLogged := (download_wallet_files w.storage w.container_name w.fs).2.isSome
        connectAttempted := true, connected := true
        generatorInvoked := true, connectionClosed := false, uncaught := some i } := by
  simp [generate_usage_data, get_db_connection, insert_data, hc, hfind]

lemma generate_usage_data_insert_ok (w : World) (hc : w.connectOk = true)
    (hfind : (List.range (generate_sample_data_tuples w.rng 10).length).find? w.failAt
      = none) :
    generate_usage_data w =
      { fs := (download_wallet_files w.storage w.container_name w.fs).1
        db := ⟨w.db.committed ++ generate_sample_data_tuples w.rng 10⟩
        fetchErrorLogged := (download_wallet_files w.storage w.container_name w.fs).2.isSome
        connectAttempted := true, connected := true
        generatorInvoked := true, connectionClosed := true, uncaught := none } := by
  simp [generate_usage_data, get_db_connection, insert_data, hc, hfind]

/-- C1 counterexample: with a simulated failure injected on the last row
(row 9) of the batch, the row-level failure is not caught and reported as an
`InsertError`: `insert_data` has no exception handling, so the database
exception escapes `generate_usage_data` uncaught (`uncaught = some 9`),
refuting the claim that on any row-level failure an `InsertError` is
reported. -/
theorem insert_failure_escapes_unreported :
    (generate_usage_data wFail9).uncaught = some 9 ∧
    (generate_usage_data wFail9).db = wFail9.db := ⟨rfl, rfl⟩

/-- C1 amended: `insert_data` is all-or-nothing with respect to the
committed table: on success the committed table is extended by exactly the
whole batch, and whenever the run ends with an escaped insert exception the
committed table is unchanged (zero rows observable).  However, the failure
is not caught and no `InsertError` is reported: the exception propagates to
the caller (and no explicit rollback is issued; atomicity holds because
`commit` only runs after the whole batch executes). -/
theorem insert_all_or_nothing :
    (∀ (failAt : Nat → Bool) (db : DBState) (data_tuples : List DataTuple) (db1 : DBState),
      insert_data failAt db data_tuples = Except.ok db1 →
        db1.committed = db.committed ++ data_tuples) ∧
    (∀ w : World, (generate_usage_data w).uncaught ≠ none →
      (generate_usage_data w).db = w.db) := by
  constructor
  · intro failAt db data_tuples db1 hok
    unfold insert_data at hok
    cases hfind : (List.range data_tuples.length).find? failAt with
    | some i => rw [hfind] at hok; simp at hok
    | none => rw [hfind] at hok; cases hok; rfl
  · intro w hu
    cases hc : w.connectOk with
    | false => rw [generate_usage_data_no_conn w hc]
    | true =>
      cases hfind : (List.range (generate_sample_data_tuples w.rng 10).length).find? w.failAt with
      | some i => rw [generate_usage_data_insert_fail w i hc hfind]
      | none =>
        exfalso
        rw [generate_usage_data_insert_ok w hc hfind] at hu
        exact hu rfl

/-- C1 amended witness: the success half at a world with no failing row, and
the failure half at the last-row-failure world. -/
theorem insert_all_or_nothing_witness :
    (⟨generate_sample_data_tuples rng0 1⟩ : DBState).committed =
      (⟨[]⟩ : DBState).committed ++ generate_sample_data_tuples rng0 1 ∧
    (generate_usage_data wFail9).db = wFail9.db :=
  ⟨insert_all_or_nothing.1 (fun _ => false) ⟨[]⟩ (generate_sample_data_tuples rng0 1)
      ⟨generate_sample_data_tuples rng0 1⟩ rfl,
    insert_all_or_nothing.2 wFail9 (fun hnone => Option.noConfusion hnone)⟩

/-- C2 counterexample: in a world where the database rejects the first row
of the batch, the exception raised inside `insert_data` propagates uncaught
out of `generate_usage_data` (`uncaught = some 0`), refuting the claim that
no exception propagates uncaught out of a run for every combination of
outcomes. -/
theorem run_uncaught_exception_exists :
    (generate_usage_data wFail0).uncaught = some 0 := rfl

/-- C2 amended: failure paths in provisioning (all exceptions caught inside
`download_wallet_files`) and in connecting (`DatabaseError` caught inside
`get_db_connection`) end the invocation gracefully; only a failure during
the batch insert escapes the run uncaught.  So no exception propagates
whenever the connection fails or no row of the batch of 10 fails. -/
theorem run_uncaught_only_from_insert (w : World)
    (h : w.connectOk = false ∨ ∀ i, i < 10 → w.failAt i = false) :
    (generate_usage_data w).uncaught = none := by
  rcases h with hc | hf
  · rw [generate_usage_data_no_conn w hc]
  · cases hc : w.connectOk with
    | false => rw [generate_usage_data_no_conn w hc]
    | true =>
      have hfind : (List.range (generate_sample_data_tuples w.rng 10).length).find? w.failAt
          = none := by
        rw [generate_length w.rng 10]
        apply List.find?_eq_none.mpr
        intro i hi
        simp only [List.mem_range] at hi
        simp [hf i hi]
      rw [generate_usage_data_insert_ok w hc hfind]

/-- C2 amended witness: the theorem at the world whose connect attempt
fails. -/
theorem run_uncaught_only_from_insert_witness :
    (generate_usage_data wNoConn).uncaught = none :=
  run_uncaught_only_from_insert wNoConn (Or.inl rfl)

/-- C3 counterexample: in a world where fetching `ewallet.pem` fails, the
failure is only logged inside `download_wallet_files`; no `FetchError`
reaches the orchestrator, and the run does not abort: it still attempts the
database connection, connects, and invokes the generator — refuting the
claim that the run transitions to `Aborted` without attempting a database
connection. -/
theorem fetch_failure_does_not_abort :
    (generate_usage_data wFetchFail).fetchErrorLogged = true ∧
    (generate_usage_data wFetchFail).connectAttempted = true ∧
    (generate_usage_data wFetchFail).connected = true ∧
    (generate_usage_data wFetchFail).generatorInvoked = true :=
  ⟨rfl, rfl, rfl, rfl⟩

/-- C3 amended: a provisioning failure is not silently ignored — it is
caught and logged inside `download_wallet_files` — but it is not surfaced
as a `FetchError` to the orchestrator, and the run proceeds to attempt a
database connection regardless of the failure. -/
theorem fetch_failure_logged_and_run_continues (w : World)
    (h : (download_wallet_files w.storage w.container_name w.fs).2.isSome = true) :
    (generate_usage_data w).fetchErrorLogged = true ∧
    (generate_usage_data w).connectAttempted = true := by
  cases hc : w.connectOk with
  | false => rw [generate_usage_data_no_conn w hc]; exact ⟨h, rfl⟩
  | true =>
    cases hfind : (List.range (generate_sample_data_tuples w.rng 10).length).find? w.failAt with
    | some i => rw [generate_usage_data_insert_fail w i hc hfind]; exact ⟨h, rfl⟩
    | none => rw [generate_usage_data_insert_ok w hc hfind]; exact ⟨h, rfl⟩

/-- C3 amended witness: the theorem at the world whose `ewallet.pem` fetch
fails. -/
theorem fetch_failure_logged_and_run_continues_witness :
    (generate_usage_data wFetchFail).fetchErrorLogged = true ∧
    (generate_usage_data wFetchFail).connectAttempted = true :=
  fetch_failure_logged_and_run_continues wFetchFail rfl

/-- C4 counterexample: in a world where the insert fails on row 5, the run
reaches the `Inserting` stage with an open connection, `insert_data` raises,
and `connection.close()` on the line after `insert_data` is skipped: the
connection is not closed on this exit path, refuting the claim that the
connection is closed on every exit path of the inserting stage. -/
theorem connection_left_open_on_insert_failure :
    (generate_usage_data wFail5).connected = true ∧
    (generate_usage_data wFail5).connectionClosed = false := ⟨rfl, rfl⟩

/-- C4 amended: for every run that obtains a connection, the connection is
closed if and only if the batch insert returns without raising; when the
insert raises, the exception escapes before `connection.close()` and the
connection is left open. -/
theorem connection_closed_iff_insert_succeeds (w : World)
    (h : (generate_usage_data w).connected = true) :
    ((generate_usage_data w).uncaught = none →
      (generate_usage_data w).connectionClosed = true) ∧
    ((generate_usage_data w).uncaught ≠ none →
      (generate_usage_data w).connectionClosed = false) := by
  cases hc : w.connectOk with
  | false =>
    rw [generate_usage_data_no_conn w hc] at h
    exact absurd h (by simp)
  | true =>
    cases hfind : (List.range (generate_sample_data_tuples w.rng 10).length).find? w.failAt with
    | some i =>
      rw [generate_usage_data_insert_fail w i hc hfind]
      exact ⟨fun hn => Option.noConfusion hn, fun _ => rfl⟩
    | none =>
      rw [generate_usage_data_insert_ok w hc hfind]
      exact ⟨fun _ => rfl, fun hn => absurd rfl hn⟩

/-- C4 amended witness: the theorem at the healthy world, whose insert
succeeds and whose connection is closed. -/
theorem connection_closed_iff_insert_succeeds_witness :
    ((generate_usage_data wOK).uncaught = none →
      (generate_usage_data wOK).connectionClosed = true) ∧
    ((generate_usage_data wOK).uncaught ≠ none →
      (generate_usage_data wOK).connectionClosed = false) :=
  connection_closed_iff_insert_succeeds wOK rfl

/-- C7: when the connect attempt fails, `get_db_connection` returns `None`
and the `if connection:` guard skips the body: the generator is never
invoked and the committed table is unchanged — no generation and no
insertion occur in that run. -/
theorem no_generation_without_connection (w : World) (h : w.connectOk = false) :
    (generate_usage_data w).generatorInvoked = false ∧
    (generate_usage_data w).connected = false ∧
    (generate_usage_data w).db = w.db := by
  rw [generate_usage_data_no_conn w h]
  exact ⟨rfl, rfl, rfl⟩

/-- C7 witness: the theorem at the world whose connect attempt fails. -/
theorem no_generation_without_connection_witness :
    (generate_usage_data wNoConn).generatorInvoked = false ∧
    (generate_usage_data wNoConn).connected = false ∧
    (generate_usage_data wNoConn).db = wNoConn.db :=
  no_generation_without_connection wNoConn rfl

/-- C10: `download_wallet_files` returns normally on every input — its
`try`/`except Exception` catches every exception raised while fetching or
writing the artifacts (reflected in its total return type `FS × Option
String`) — so every invocation of the job proceeds to attempt a database
connection regardless of how many credential files were staged. -/
theorem download_never_blocks_connection (w : World) :
    (generate_usage_data w).connectAttempted = true := by
  cases hc : w.connectOk with
  | false => rw [generate_usage_data_no_conn w hc]
  | true =>
    cases hfind : (List.range (generate_sample_data_tuples w.rng 10).length).find? w.failAt with
    | some i => rw [generate_usage_data_insert_fail w i hc hfind]
    | none => rw [generate_usage_data_insert_ok w hc hfind]

/-- C8: provisioning is idempotent: running `download_wallet_files` twice
in a row against the same storage (identical remote blob contents, storage
modelled as a deterministic fetch function) leaves byte-for-byte identical
file contents at the two staged local paths — the second overwrite is
deterministic and changes nothing. -/
theorem download_wallet_files_idempotent (storage : Storage) (container_name : String)
    (fs : FS) :
    (download_wallet_files storage container_name
        (download_wallet_files storage container_name fs).1).1 PEM_PATH =
      (download_wallet_files storage container_name fs).1 PEM_PATH ∧
    (download_wallet_files storage container_name
        (download_wallet_files storage container_name fs).1).1 TNS_PATH =
      (download_wallet_files storage container_name fs).1 TNS_PATH := by
  have hne : PEM_PATH ≠ TNS_PATH := by decide
  cases hp : storage.fetch container_name "ewallet.pem" with
  | error e =>
    simp [download_wallet_files, downloadLoop, download_file, files_to_download, hp]
  | ok b =>
    cases ht : storage.fetch container_name "tnsnames.ora" with
    | error e2 =>
      simp [download_wallet_files, downloadLoop, download_file, files_to_download, hp, ht,
        Function.update_same, Function.update_noteq hne, Function.update_idem]
    | ok c =>
      simp [download_wallet_files, downloadLoop, download_file, files_to_download, hp, ht,
        Function.update_same, Function.update_noteq hne, Function.update_noteq (Ne.symm hne),
        Function.update_idem]
